import Mathlib

/-!
Verification development for `scripts/add_browser_frame.py`: a shallow
embedding of the browser-frame rendering pipeline (geometry, supersampled
rasterization, layer compositing, batch driver) together with theorems
settling the specification claims.

Modelling conventions, stated once:
* A pixel buffer is a total function `Nat → Nat → RGBA` plus its
  dimensions; only in-bounds pixels are meaningful (`Img.Eq` compares
  in-bounds pixels).  Channels are `Nat`s in `0..255`.
* PIL primitives that the script calls are modelled by their documented
  pixel semantics in exact integer arithmetic:
  - `ImageDraw.rounded_rectangle(fill=..)` paints the integer points of the
    box whose corner regions satisfy the quarter-disc inequality;
  - `Image.alpha_composite` is the straight-alpha "over" operator;
  - `Image.paste(im, box, mask)` is the per-band linear blend with the mask
    value as blend weight (this includes the alpha band);
  - `Image.resize(.., LANCZOS)` is the downsampling filter: since the
    script always downscales by the fixed integer factor
    `SUPERSAMPLE_SCALE = 3`, it is modelled as the exact 3x3 block-average
    filter (a smoothing downsampler with the same signature and locality);
  - `ImageFilter.GaussianBlur(r)` (which PIL documents as approximated by
    box filters) is modelled as a single box average of radius `r` with
    edge clamping.
  The claims settled below do not depend on the precise kernel shape of
  the two filters; counterexample pixels are chosen with a safety margin
  larger than the Lanczos support so that they are robust to the kernel.
* Text rendering (fonts, metrics) is external to the repository; it is
  modelled as painting the text colour in a centred band whose extent
  depends on the string.  No claim depends on the glyphs, only on whether
  the text stage runs at all.
-/

/-- One RGBA pixel, straight (non-premultiplied) alpha, channels 0..255. -/
@[ext]
structure RGBA where
  r : Nat
  g : Nat
  b : Nat
  a : Nat
deriving DecidableEq, Repr

/-- The fully transparent pixel `(0, 0, 0, 0)`. -/
def transparentPx : RGBA := ⟨0, 0, 0, 0⟩

/-- An RGBA pixel buffer: dimensions plus a total pixel function. -/
structure Img where
  width : Nat
  height : Nat
  px : Nat → Nat → RGBA

/-- A single-channel ("L" mode) buffer, used for the content mask. -/
structure MaskImg where
  width : Nat
  height : Nat
  px : Nat → Nat → Nat

/-- In-bounds pixel equality of two buffers (what "pixel-identical" means
for buffers whose pixel functions are only meaningful in bounds). -/
def Img.Eq (i1 i2 : Img) : Prop :=
  i1.width = i2.width ∧ i1.height = i2.height ∧
    ∀ x, x < i1.width → ∀ y, y < i1.height → i1.px x y = i2.px x y

instance (i1 i2 : Img) : Decidable (i1.Eq i2) :=
  inferInstanceAs (Decidable (_ ∧ _ ∧ _))

/-! Frame styling constants, from the top of `add_browser_frame.py`. -/

def TITLE_BAR_HEIGHT : Nat := 32
def BUTTON_RADIUS : Nat := 6
def BUTTON_SPACING : Nat := 8
def BUTTON_LEFT_MARGIN : Nat := 12
def BUTTON_COLORS : List String := ["#ff5f57", "#febc2e", "#28c840"]
def TITLE_BAR_COLOR : Nat × Nat × Nat := (232, 232, 232)
def BORDER_COLOR : Nat × Nat × Nat := (200, 200, 200)
def CORNER_RADIUS : Int := 10
def SHADOW_OFFSET : Nat := 4
def SHADOW_BLUR : Nat := 12
def SHADOW_COLOR : RGBA := ⟨0, 0, 0, 80⟩
def PADDING : Nat := 20
def SUPERSAMPLE_SCALE : Nat := 3

/-- Value of a hexadecimal digit character (`int(c, 16)` on one digit). -/
def hexDigit (c : Char) : Nat :=
  if '0' ≤ c ∧ c ≤ '9' then c.toNat - 48
  else if 'a' ≤ c ∧ c ≤ 'f' then c.toNat - 87
  else if 'A' ≤ c ∧ c ≤ 'F' then c.toNat - 55
  else 0

/-- `hex_to_rgb` from the script: strip leading `#`, parse three
two-digit hexadecimal components. -/
def hex_to_rgb (s : String) : Nat × Nat × Nat :=
  match (s.dropWhile (· = '#')).toList with
  | [c1, c2, c3, c4, c5, c6] =>
      (16 * hexDigit c1 + hexDigit c2,
       16 * hexDigit c3 + hexDigit c4,
       16 * hexDigit c5 + hexDigit c6)
  | _ => (0, 0, 0)

/-! Regions: decidable pixel sets for the drawing primitives.  All boxes
use PIL's inclusive convention (`rectangle((x0,y0,x1,y1))` paints
`x0 ≤ x ≤ x1`, `y0 ≤ y ≤ y1`).  Boxes are `Int` so that expressions such
as `hi_height - hi_radius` keep their source form. -/

/-- Plain filled rectangle in box-relative coordinates. -/
def rectRel (w h u v : Int) : Prop :=
  0 ≤ u ∧ u ≤ w ∧ 0 ≤ v ∧ v ≤ h

/-- Filled rectangle region of `ImageDraw.rectangle`. -/
def rectRegion (x0 y0 x1 y1 x y : Int) : Prop :=
  rectRel (x1 - x0) (y1 - y0) (x - x0) (y - y0)

/-- Rounded-rectangle interior in box-relative coordinates: inside the
box, and inside the quarter disc wherever a corner square is entered.
The corner discs have radius `r` centred `r` pixels inside each corner,
matching the pieslice boxes PIL uses. -/
def roundedRel (w h r u v : Int) : Prop :=
  (0 ≤ u ∧ u ≤ w ∧ 0 ≤ v ∧ v ≤ h) ∧
  (u < r ∧ v < r → (r - u) ^ 2 + (r - v) ^ 2 ≤ r ^ 2) ∧
  (w - r < u ∧ v < r → (u - (w - r)) ^ 2 + (r - v) ^ 2 ≤ r ^ 2) ∧
  (u < r ∧ h - r < v → (r - u) ^ 2 + (v - (h - r)) ^ 2 ≤ r ^ 2) ∧
  (w - r < u ∧ h - r < v → (u - (w - r)) ^ 2 + (v - (h - r)) ^ 2 ≤ r ^ 2)

/-- Filled region of `ImageDraw.rounded_rectangle`. -/
def roundedRegion (x0 y0 x1 y1 r x y : Int) : Prop :=
  roundedRel (x1 - x0) (y1 - y0) r (x - x0) (y - y0)

/-- Filled region of `ImageDraw.ellipse` on the box
`(cx - rad, cy - rad, cx + rad, cy + rad)`: the disc of radius `rad`
centred at `(cx, cy)` (the traffic-light buttons). -/
def discRegion (cx cy rad x y : Int) : Prop :=
  (x - cx) ^ 2 + (y - cy) ^ 2 ≤ rad ^ 2

/-- Region of the horizontal `ImageDraw.line` of odd width `2*halfw + 1`
drawn at height `yc` from `x0` to `x1`: a centred band. -/
def hlineRegion (x0 x1 yc halfw x y : Int) : Prop :=
  x0 ≤ x ∧ x ≤ x1 ∧ yc - halfw ≤ y ∧ y ≤ yc + halfw

instance (w h u v : Int) : Decidable (rectRel w h u v) :=
  inferInstanceAs (Decidable (_ ∧ _ ∧ _ ∧ _))

instance (x0 y0 x1 y1 x y : Int) : Decidable (rectRegion x0 y0 x1 y1 x y) :=
  inferInstanceAs (Decidable (rectRel _ _ _ _))

instance (w h r u v : Int) : Decidable (roundedRel w h r u v) :=
  inferInstanceAs (Decidable (_ ∧ _ ∧ _ ∧ _ ∧ _))

instance (x0 y0 x1 y1 r x y : Int) : Decidable (roundedRegion x0 y0 x1 y1 r x y) :=
  inferInstanceAs (Decidable (roundedRel _ _ _ _ _))

instance (cx cy rad x y : Int) : Decidable (discRegion cx cy rad x y) :=
  inferInstanceAs (Decidable (_ ≤ _))

instance (x0 x1 yc halfw x y : Int) : Decidable (hlineRegion x0 x1 yc halfw x y) :=
  inferInstanceAs (Decidable (_ ∧ _ ∧ _ ∧ _))

/-- Paint a colour over a region of a pixel function (one `ImageDraw`
fill call: painted pixels are set to the ink, others keep their value). -/
def paint (region : Int → Int → Prop) [∀ x y, Decidable (region x y)]
    (c : RGBA) (f : Nat → Nat → RGBA) : Nat → Nat → RGBA :=
  fun x y => if region (Int.ofNat x) (Int.ofNat y) then c else f x y

/-- Paint a value over a region of a single-channel function. -/
def paintL (region : Int → Int → Prop) [∀ x y, Decidable (region x y)]
    (v : Nat) (f : Nat → Nat → Nat) : Nat → Nat → Nat :=
  fun x y => if region (Int.ofNat x) (Int.ofNat y) then v else f x y

/-- The all-transparent pixel function (`Image.new("RGBA", .., (0,0,0,0))`). -/
def blankFn : Nat → Nat → RGBA := fun _ _ => transparentPx

/-- A fresh transparent canvas of the given size. -/
def blankImg (w h : Nat) : Img := ⟨w, h, blankFn⟩

/-- Sum `f 0 + f 1 + ... + f (n-1)`. -/
def sumUpTo : Nat → (Nat → Nat) → Nat
  | 0, _ => 0
  | n + 1, f => sumUpTo n f + f n

/-- One channel of the 3x3 block-average downsample (the model of
`Image.resize(.., LANCZOS)` at the fixed supersample factor 3). -/
def downChan (f : Nat → Nat → Nat) (x y : Nat) : Nat :=
  (sumUpTo 3 (fun i => sumUpTo 3 (fun j => f (3 * x + i) (3 * y + j))) + 4) / 9

/-- Downscale a supersampled RGBA pixel function by the factor 3 to the
given target size; channels are resampled independently, as PIL does. -/
def resizeDown3 (f : Nat → Nat → RGBA) (w h : Nat) : Img :=
  ⟨w, h, fun x y =>
    ⟨downChan (fun u v => (f u v).r) x y,
     downChan (fun u v => (f u v).g) x y,
     downChan (fun u v => (f u v).b) x y,
     downChan (fun u v => (f u v).a) x y⟩⟩

/-- Downscale a supersampled single-channel function by the factor 3. -/
def resizeDown3L (f : Nat → Nat → Nat) (w h : Nat) : MaskImg :=
  ⟨w, h, fun x y => downChan f x y⟩

/-- Clamp a (possibly overshooting) coordinate into `0..n-1`; together
with truncated `Nat` subtraction this gives edge-extension at borders. -/
def clampCoord (v n : Nat) : Nat := min v (n - 1)

/-- One channel of the box blur of radius `rad` (the model of
`ImageFilter.GaussianBlur`, which PIL documents as an approximation by
box filters), with edge clamping. -/
def blurChan (rad w h : Nat) (f : Nat → Nat → Nat) (x y : Nat) : Nat :=
  sumUpTo (2 * rad + 1) (fun i =>
    sumUpTo (2 * rad + 1) (fun j =>
      f (clampCoord (x + i - rad) w) (clampCoord (y + j - rad) h)))
  / ((2 * rad + 1) * (2 * rad + 1))

/-- Blur an RGBA buffer channel-wise with the box blur of radius `rad`. -/
def blurBox (rad : Nat) (img : Img) : Img :=
  ⟨img.width, img.height, fun x y =>
    ⟨blurChan rad img.width img.height (fun u v => (img.px u v).r) x y,
     blurChan rad img.width img.height (fun u v => (img.px u v).g) x y,
     blurChan rad img.width img.height (fun u v => (img.px u v).b) x y,
     blurChan rad img.width img.height (fun u v => (img.px u v).a) x y⟩⟩

/-! Compositing operators. -/

/-- Straight-alpha "over" on one pixel (`Image.alpha_composite` per
pixel): `n` is `255` times the exact output alpha; colour channels are
the alpha-weighted average, with rounding to nearest on the alpha and a
half-denominator rounding on the colours.  When the source pixel is
fully transparent the destination pixel is returned unchanged. -/
def acPix (dst src : RGBA) : RGBA :=
  if src.a = 0 then dst
  else
    let n := src.a * 255 + dst.a * (255 - src.a)
    ⟨(src.r * src.a * 255 + dst.r * dst.a * (255 - src.a) + n / 2) / n,
     (src.g * src.a * 255 + dst.g * dst.a * (255 - src.a) + n / 2) / n,
     (src.b * src.a * 255 + dst.b * dst.a * (255 - src.a) + n / 2) / n,
     (n + 127) / 255⟩

/-- Per-band mask blend of `Image.paste(im, box, mask)` on one pixel:
every band (including alpha) is `(dst*(255-m) + src*m) / 255`, rounded. -/
def blendChan (d s m : Nat) : Nat := (d * (255 - m) + s * m + 127) / 255

/-- `blendChan` on all four bands. -/
def blendPix (dst src : RGBA) (m : Nat) : RGBA :=
  ⟨blendChan dst.r src.r m, blendChan dst.g src.g m,
   blendChan dst.b src.b m, blendChan dst.a src.a m⟩

/-- `Image.alpha_composite(dst, src)`: pixelwise "over" of two buffers
of equal (canvas) size. -/
def alphaComposite (dst src : Img) : Img :=
  ⟨dst.width, dst.height, fun x y => acPix (dst.px x y) (src.px x y)⟩

/-- `dst.paste(src, (ox, oy))` without a mask: pixels of the pasted
rectangle are replaced wholesale, alpha included. -/
def pasteImg (dst src : Img) (ox oy : Nat) : Img :=
  ⟨dst.width, dst.height, fun x y =>
    if ox ≤ x ∧ x < ox + src.width ∧ oy ≤ y ∧ y < oy + src.height then
      src.px (x - ox) (y - oy)
    else dst.px x y⟩

/-- `dst.paste(src, (ox, oy), src)`: paste an RGBA image using itself as
the mask, i.e. blend each band with the source's own alpha band as the
blend weight (this is how the title bar is placed). -/
def pasteSelf (dst src : Img) (ox oy : Nat) : Img :=
  ⟨dst.width, dst.height, fun x y =>
    if ox ≤ x ∧ x < ox + src.width ∧ oy ≤ y ∧ y < oy + src.height then
      blendPix (dst.px x y) (src.px (x - ox) (y - oy)) ((src.px (x - ox) (y - oy)).a)
    else dst.px x y⟩

/-- `dst.paste(content, (0, 0), mask)` with canvas-sized `content` and
single-channel `mask`: blend every band with the mask value as weight. -/
def pasteFullMask (dst content : Img) (mask : MaskImg) : Img :=
  ⟨dst.width, dst.height, fun x y =>
    blendPix (dst.px x y) (content.px x y) (mask.px x y)⟩

/-! The title bar generator (`create_title_bar_supersampled`). -/

/-- Truthiness of the `title` argument (`if title:` in Python): a string
is truthy iff it is present and non-empty. -/
def titleTruthy : Option String → Bool
  | none => false
  | some s => !s.isEmpty

/-- Modelled from the spec: the centred title text (§4.2).  Font lookup
and glyph rasterisation are external to the repository; the model paints
the text colour `(80, 80, 80)` in a band centred in the bar whose width
grows with the string length.  No claim depends on the glyphs, only on
whether this stage runs. -/
def drawTextModel (hiW hiH : Nat) (s : String) (f : Nat → Nat → RGBA) :
    Nat → Nat → RGBA :=
  paint (hlineRegion (Int.ofNat hiW / 2 - 2 * Int.ofNat s.length)
      (Int.ofNat hiW / 2 + 2 * Int.ofNat s.length) (Int.ofNat hiH / 2) 2)
    ⟨80, 80, 80, 255⟩ f

/-- The title-bar background ink: `TITLE_BAR_COLOR + (255,)`. -/
def titleBarInk : RGBA :=
  ⟨TITLE_BAR_COLOR.1, TITLE_BAR_COLOR.2.1, TITLE_BAR_COLOR.2.2, 255⟩

/-- The border-line ink (RGB ink on an RGBA image gets alpha 255). -/
def borderInk : RGBA :=
  ⟨BORDER_COLOR.1, BORDER_COLOR.2.1, BORDER_COLOR.2.2, 255⟩

/-- Ink of traffic-light button `i`: `hex_to_rgb(BUTTON_COLORS[i])`. -/
def buttonInk (i : Nat) : RGBA :=
  let c := hex_to_rgb (BUTTON_COLORS.getD i "")
  ⟨c.1, c.2.1, c.2.2, 255⟩

/-- Centre x-coordinate of traffic-light button `i` on the hi-res bar. -/
def buttonX (hiButtonMargin hiButtonRadius hiButtonSpacing i : Nat) : Nat :=
  hiButtonMargin + i * (hiButtonRadius * 2 + hiButtonSpacing)

/-- `create_title_bar_supersampled(width, height, corner_radius, title)`:
render the bar at 3x resolution (rounded rectangle squared off at the
bottom, three buttons, optional centred title, bottom border line), then
downscale. -/
def create_title_bar_supersampled (width height : Nat) (corner_radius : Int)
    (title : Option String) : Img :=
  let scale := SUPERSAMPLE_SCALE
  let hiW := width * scale
  let hiH := height * scale
  let hiR : Int := corner_radius * Int.ofNat scale
  let hiBR := BUTTON_RADIUS * scale
  let hiBS := BUTTON_SPACING * scale
  let hiBM := BUTTON_LEFT_MARGIN * scale
  let f1 := paint (roundedRegion 0 0 (Int.ofNat hiW) (Int.ofNat hiH) hiR) titleBarInk blankFn
  let f2 := paint (rectRegion 0 (Int.ofNat hiH - hiR) (Int.ofNat hiW) (Int.ofNat hiH)) titleBarInk f1
  let buttonY := hiH / 2
  let f3 := paint (discRegion (Int.ofNat (buttonX hiBM hiBR hiBS 0)) (Int.ofNat buttonY)
      (Int.ofNat hiBR)) (buttonInk 0) f2
  let f4 := paint (discRegion (Int.ofNat (buttonX hiBM hiBR hiBS 1)) (Int.ofNat buttonY)
      (Int.ofNat hiBR)) (buttonInk 1) f3
  let f5 := paint (discRegion (Int.ofNat (buttonX hiBM hiBR hiBS 2)) (Int.ofNat buttonY)
      (Int.ofNat hiBR)) (buttonInk 2) f4
  let f6 := if titleTruthy title then drawTextModel hiW hiH (title.getD "") f5 else f5
  let f7 := paint (hlineRegion 0 (Int.ofNat hiW) (Int.ofNat hiH - Int.ofNat scale)
      (Int.ofNat ((scale - 1) / 2))) borderInk f6
  resizeDown3 f7 width height

/-! The frame assembler (`create_browser_frame`). -/

/-- Geometry derived in lines 154-168 of the script: frame size, canvas
size, and the frame origin (`offset_x`, `offset_y`). -/
structure Geometry where
  canvas_width : Nat
  canvas_height : Nat
  offset_x : Nat
  offset_y : Nat
deriving DecidableEq, Repr

/-- Compute the geometry from the frame dimensions: padding on all sides
when the shadow is enabled, a tight canvas otherwise. -/
def computeGeometry (frame_width frame_height : Nat) (shadow : Bool) : Geometry :=
  if shadow then
    ⟨frame_width + PADDING * 2, frame_height + PADDING * 2, PADDING, PADDING⟩
  else
    ⟨frame_width, frame_height, 0, 0⟩

/-- The shadow layer (lines 175-196): a rounded rectangle of frame size,
offset by `SHADOW_OFFSET`, filled with `SHADOW_COLOR`, drawn at 3x
resolution, downscaled, then blurred with `SHADOW_BLUR`. -/
def shadow_canvas_def (g : Geometry) (frame_width frame_height : Nat)
    (corner_radius : Int) : Img :=
  let scale := SUPERSAMPLE_SCALE
  let hi := paint (roundedRegion
      (Int.ofNat ((g.offset_x + SHADOW_OFFSET) * scale))
      (Int.ofNat ((g.offset_y + SHADOW_OFFSET) * scale))
      (Int.ofNat ((g.offset_x + frame_width + SHADOW_OFFSET) * scale))
      (Int.ofNat ((g.offset_y + frame_height + SHADOW_OFFSET) * scale))
      (corner_radius * Int.ofNat scale))
    SHADOW_COLOR blankFn
  blurBox SHADOW_BLUR (resizeDown3 hi g.canvas_width g.canvas_height)

/-- The `shadow_canvas` variable of the script: `some` layer exactly when
the shadow is enabled, `none` otherwise. -/
def shadow_canvas_opt (g : Geometry) (frame_width frame_height : Nat)
    (shadow : Bool) (corner_radius : Int) : Option Img :=
  if shadow then some (shadow_canvas_def g frame_width frame_height corner_radius) else none

/-- The white rounded-corner background layer (lines 199-216). -/
def bg_layer_def (g : Geometry) (frame_width frame_height : Nat)
    (corner_radius : Int) : Img :=
  let scale := SUPERSAMPLE_SCALE
  let hi := paint (roundedRegion
      (Int.ofNat (g.offset_x * scale))
      (Int.ofNat (g.offset_y * scale))
      (Int.ofNat ((g.offset_x + frame_width) * scale))
      (Int.ofNat ((g.offset_y + frame_height) * scale))
      (corner_radius * Int.ofNat scale))
    ⟨255, 255, 255, 255⟩ blankFn
  resizeDown3 hi g.canvas_width g.canvas_height

/-- The content mask (lines 231-255): rounded rectangle over the content
area, squared off at the top for a band of height `corner_radius`, drawn
at 3x resolution into an "L" image and downscaled. -/
def content_mask_def (g : Geometry) (frame_width frame_height : Nat)
    (corner_radius : Int) : MaskImg :=
  let scale := SUPERSAMPLE_SCALE
  let m1 := paintL (roundedRegion
      (Int.ofNat (g.offset_x * scale))
      (Int.ofNat ((g.offset_y + TITLE_BAR_HEIGHT) * scale))
      (Int.ofNat ((g.offset_x + frame_width) * scale))
      (Int.ofNat ((g.offset_y + frame_height) * scale))
      (corner_radius * Int.ofNat scale))
    255 (fun _ _ => 0)
  let m2 := paintL (rectRegion
      (Int.ofNat (g.offset_x * scale))
      (Int.ofNat ((g.offset_y + TITLE_BAR_HEIGHT) * scale))
      (Int.ofNat ((g.offset_x + frame_width) * scale))
      ((Int.ofNat (g.offset_y + TITLE_BAR_HEIGHT) + corner_radius) * Int.ofNat scale))
    255 m1
  resizeDown3L m2 g.canvas_width g.canvas_height

/-- The content layer (lines 258-259): the source pasted at the content
position onto a fresh transparent canvas. -/
def content_layer_def (g : Geometry) (source : Img) : Img :=
  pasteImg (blankImg g.canvas_width g.canvas_height) source
    g.offset_x (g.offset_y + TITLE_BAR_HEIGHT)

/-- The canvas-sized title-bar layer of the second pass (lines 272-273):
the bar pasted at the frame origin, with itself as the mask. -/
def title_bar_layer_def (g : Geometry) (title_bar : Img) : Img :=
  pasteSelf (blankImg g.canvas_width g.canvas_height) title_bar g.offset_x g.offset_y

/-- `create_browser_frame` in full: returns the pair of the two canvases
the function builds in order — `final` (first assembly pass, lines
171-229: shadow, background, title bar, then the source pasted without a
mask) and `final_with_content` (second pass, lines 262-277: shadow,
background, title-bar layer, then the content layer blended through the
content mask).  Line 281 saves `final_with_content`; decoding the input
and encoding the output are external I/O and outside this model, whose
contract ends at the in-memory buffers. -/
def create_browser_frame_full (source : Img) (title : Option String)
    (shadow : Bool) (corner_radius : Int) : Img × Img :=
  let frame_width := source.width
  let frame_height := source.height + TITLE_BAR_HEIGHT
  let g := computeGeometry frame_width frame_height shadow
  let shadow_canvas := shadow_canvas_opt g frame_width frame_height shadow corner_radius
  let final0 := blankImg g.canvas_width g.canvas_height
  let final1 := match shadow_canvas with
    | some sc => alphaComposite final0 sc
    | none => final0
  let bg_layer := bg_layer_def g frame_width frame_height corner_radius
  let final2 := alphaComposite final1 bg_layer
  let title_bar := create_title_bar_supersampled frame_width TITLE_BAR_HEIGHT corner_radius title
  let final3 := pasteSelf final2 title_bar g.offset_x g.offset_y
  let final4 := pasteImg final3 source g.offset_x (g.offset_y + TITLE_BAR_HEIGHT)
  let content_mask := content_mask_def g frame_width frame_height corner_radius
  let content_layer := content_layer_def g source
  let fwc0 := blankImg g.canvas_width g.canvas_height
  let fwc1 := if shadow then
      match shadow_canvas with
      | some sc => alphaComposite fwc0 sc
      | none => fwc0
    else fwc0
  let fwc2 := alphaComposite fwc1 bg_layer
  let fwc3 := alphaComposite fwc2 (title_bar_layer_def g title_bar)
  let fwc4 := pasteFullMask fwc3 content_layer content_mask
  (final4, fwc4)

/-- The saved output buffer of `create_browser_frame`. -/
def create_browser_frame (source : Img) (title : Option String)
    (shadow : Bool) (corner_radius : Int) : Img :=
  (create_browser_frame_full source title shadow corner_radius).2

/-- The second assembly pass alone (lines 262-277), written without
building the first-pass buffer at all. -/
def assemble_second_pass (source : Img) (title : Option String)
    (shadow : Bool) (corner_radius : Int) : Img :=
  let frame_width := source.width
  let frame_height := source.height + TITLE_BAR_HEIGHT
  let g := computeGeometry frame_width frame_height shadow
  let shadow_canvas := shadow_canvas_opt g frame_width frame_height shadow corner_radius
  let bg_layer := bg_layer_def g frame_width frame_height corner_radius
  let title_bar := create_title_bar_supersampled frame_width TITLE_BAR_HEIGHT corner_radius title
  let fwc0 := blankImg g.canvas_width g.canvas_height
  let fwc1 := if shadow then
      match shadow_canvas with
      | some sc => alphaComposite fwc0 sc
      | none => fwc0
    else fwc0
  let fwc2 := alphaComposite fwc1 bg_layer
  let fwc3 := alphaComposite fwc2 (title_bar_layer_def g title_bar)
  pasteFullMask fwc3 (content_layer_def g source)
    (content_mask_def g frame_width frame_height corner_radius)

/-- The composite stack as §4.5 of the specification words it, for the
refinement claim: onto a fully transparent canvas of canvas dimensions,
alpha-composite in this exact order (1) the blurred shadow layer, only
when the shadow is enabled, (2) the white rounded-rectangle background
layer, (3) the title-bar layer, both at the frame origin, and finally
(4) blend in the source image, pasted at `content_offset + (0,
title_bar_height)`, through the canvas-sized content mask, with the mask
value as the blend alpha.  Geometry is §3's: canvas = frame dimensions
plus `2 * padding` on shadow, else the frame dimensions. -/
def specFrameComposite (source : Img) (title : Option String)
    (shadow : Bool) (corner_radius : Int) : Img :=
  let frame_width := source.width
  let frame_height := source.height + TITLE_BAR_HEIGHT
  let canvas_w := if shadow then frame_width + 2 * PADDING else frame_width
  let canvas_h := if shadow then frame_height + 2 * PADDING else frame_height
  let off_x := if shadow then PADDING else 0
  let off_y := if shadow then PADDING else 0
  let g : Geometry := ⟨canvas_w, canvas_h, off_x, off_y⟩
  let canvas := blankImg canvas_w canvas_h
  let step1 := if shadow then
      alphaComposite canvas (shadow_canvas_def g frame_width frame_height corner_radius)
    else canvas
  let step2 := alphaComposite step1 (bg_layer_def g frame_width frame_height corner_radius)
  let step3 := alphaComposite step2 (title_bar_layer_def g
    (create_title_bar_supersampled frame_width TITLE_BAR_HEIGHT corner_radius title))
  let mask := content_mask_def g frame_width frame_height corner_radius
  ⟨canvas_w, canvas_h, fun x y =>
    blendPix (step3.px x y)
      (if off_x ≤ x ∧ x < off_x + source.width ∧
          off_y + TITLE_BAR_HEIGHT ≤ y ∧ y < off_y + TITLE_BAR_HEIGHT + source.height then
        source.px (x - off_x) (y - (off_y + TITLE_BAR_HEIGHT))
      else transparentPx)
      (mask.px x y)⟩

/-! Square-cornered variants, for the corner-radius-0 degeneracy claim:
the same pipeline with every corner-rounding primitive replaced by a
plain (square-cornered) rectangle fill. -/

/-- The title bar drawn with plain rectangles only. -/
def create_title_bar_square (width height : Nat) (title : Option String) : Img :=
  let scale := SUPERSAMPLE_SCALE
  let hiW := width * scale
  let hiH := height * scale
  let hiBR := BUTTON_RADIUS * scale
  let hiBS := BUTTON_SPACING * scale
  let hiBM := BUTTON_LEFT_MARGIN * scale
  let f1 := paint (rectRegion 0 0 (Int.ofNat hiW) (Int.ofNat hiH)) titleBarInk blankFn
  let f2 := paint (rectRegion 0 (Int.ofNat hiH) (Int.ofNat hiW) (Int.ofNat hiH)) titleBarInk f1
  let buttonY := hiH / 2
  let f3 := paint (discRegion (Int.ofNat (buttonX hiBM hiBR hiBS 0)) (Int.ofNat buttonY)
      (Int.ofNat hiBR)) (buttonInk 0) f2
  let f4 := paint (discRegion (Int.ofNat (buttonX hiBM hiBR hiBS 1)) (Int.ofNat buttonY)
      (Int.ofNat hiBR)) (buttonInk 1) f3
  let f5 := paint (discRegion (Int.ofNat (buttonX hiBM hiBR hiBS 2)) (Int.ofNat buttonY)
      (Int.ofNat hiBR)) (buttonInk 2) f4
  let f6 := if titleTruthy title then drawTextModel hiW hiH (title.getD "") f5 else f5
  let f7 := paint (hlineRegion 0 (Int.ofNat hiW) (Int.ofNat hiH - Int.ofNat scale)
      (Int.ofNat ((scale - 1) / 2))) borderInk f6
  resizeDown3 f7 width height

/-- The shadow layer drawn with a plain rectangle silhouette. -/
def shadow_canvas_square (g : Geometry) (frame_width frame_height : Nat) : Img :=
  let scale := SUPERSAMPLE_SCALE
  let hi := paint (rectRegion
      (Int.ofNat ((g.offset_x + SHADOW_OFFSET) * scale))
      (Int.ofNat ((g.offset_y + SHADOW_OFFSET) * scale))
      (Int.ofNat ((g.offset_x + frame_width + SHADOW_OFFSET) * scale))
      (Int.ofNat ((g.offset_y + frame_height + SHADOW_OFFSET) * scale)))
    SHADOW_COLOR blankFn
  blurBox SHADOW_BLUR (resizeDown3 hi g.canvas_width g.canvas_height)

/-- The background layer drawn with a plain rectangle. -/
def bg_layer_square (g : Geometry) (frame_width frame_height : Nat) : Img :=
  let scale := SUPERSAMPLE_SCALE
  let hi := paint (rectRegion
      (Int.ofNat (g.offset_x * scale))
      (Int.ofNat (g.offset_y * scale))
      (Int.ofNat ((g.offset_x + frame_width) * scale))
      (Int.ofNat ((g.offset_y + frame_height) * scale)))
    ⟨255, 255, 255, 255⟩ blankFn
  resizeDown3 hi g.canvas_width g.canvas_height

/-- The content mask drawn with plain rectangles (the squaring-off band
of height `corner_radius` degenerates to the empty band). -/
def content_mask_square (g : Geometry) (frame_width frame_height : Nat) : MaskImg :=
  let scale := SUPERSAMPLE_SCALE
  let m1 := paintL (rectRegion
      (Int.ofNat (g.offset_x * scale))
      (Int.ofNat ((g.offset_y + TITLE_BAR_HEIGHT) * scale))
      (Int.ofNat ((g.offset_x + frame_width) * scale))
      (Int.ofNat ((g.offset_y + frame_height) * scale)))
    255 (fun _ _ => 0)
  let m2 := paintL (rectRegion
      (Int.ofNat (g.offset_x * scale))
      (Int.ofNat ((g.offset_y + TITLE_BAR_HEIGHT) * scale))
      (Int.ofNat ((g.offset_x + frame_width) * scale))
      (Int.ofNat (g.offset_y + TITLE_BAR_HEIGHT) * Int.ofNat scale))
    255 m1
  resizeDown3L m2 g.canvas_width g.canvas_height

/-- The optional square-cornered shadow layer. -/
def shadow_canvas_square_opt (g : Geometry) (frame_width frame_height : Nat)
    (shadow : Bool) : Option Img :=
  if shadow then some (shadow_canvas_square g frame_width frame_height) else none

/-- The saved output assembled entirely from square-cornered layers. -/
def create_browser_frame_square (source : Img) (title : Option String)
    (shadow : Bool) : Img :=
  let frame_width := source.width
  let frame_height := source.height + TITLE_BAR_HEIGHT
  let g := computeGeometry frame_width frame_height shadow
  let shadow_canvas := shadow_canvas_square_opt g frame_width frame_height shadow
  let bg_layer := bg_layer_square g frame_width frame_height
  let title_bar := create_title_bar_square frame_width TITLE_BAR_HEIGHT title
  let fwc0 := blankImg g.canvas_width g.canvas_height
  let fwc1 := if shadow then
      match shadow_canvas with
      | some sc => alphaComposite fwc0 sc
      | none => fwc0
    else fwc0
  let fwc2 := alphaComposite fwc1 bg_layer
  let fwc3 := alphaComposite fwc2 (title_bar_layer_def g title_bar)
  pasteFullMask fwc3 (content_layer_def g source)
    (content_mask_square g frame_width frame_height)

/-! The batch driver (`process_batch`, directory branch, lines 322-338). -/

/-- The error raised when PIL cannot read or decode an input image
(`Image.open` raising; DecodeError of the specification). -/
structure DecodeError where
  msg : String
deriving DecidableEq, Repr

/-- One directory entry as the batch loop sees it: filename stem and
extension, plus the outcome of decoding it.  `Image.open` performing
filesystem I/O is external; its success or failure for each entry is an
input of the model. -/
structure BatchItem where
  stem : String
  ext : String
  decoded : Except DecodeError Img

/-- `image_extensions` from line 305. -/
def IMAGE_EXTENSIONS : List String := [".png", ".jpg", ".jpeg", ".webp", ".bmp", ".gif"]

/-- Character code after ASCII lowercasing (`str.lower()` agrees with
this on filename extensions). -/
def lowerCode (c : Char) : Nat :=
  if 65 ≤ c.toNat ∧ c.toNat ≤ 90 then c.toNat + 32 else c.toNat

/-- `img_path.suffix.lower() in image_extensions` (line 328), compared
at character-code level. -/
def recognizedImage (it : BatchItem) : Bool :=
  IMAGE_EXTENSIONS.any (fun e => e.toList.map Char.toNat == it.ext.toList.map lowerCode)

/-- Output filename for one item (lines 325, 329). -/
def output_name (keep_name : Bool) (stem : String) : String :=
  stem ++ (if keep_name then "" else "_framed") ++ ".png"

/-- The directory branch of `process_batch` on the sorted entry list.
The Python loop has no exception handling, so the first decode failure
propagates out of the loop; the model returns the list of output files
created before that point together with the failure, if any (outputs
already written are not rolled back). -/
def process_batch_dir (title : Option String) (shadow : Bool)
    (corner_radius : Int) (keep_name : Bool) :
    List BatchItem → List String × Option DecodeError
  | [] => ([], none)
  | it :: rest =>
    if recognizedImage it then
      match it.decoded with
      | .error e => ([], some e)
      | .ok src =>
        let _img := create_browser_frame src title shadow corner_radius
        let res := process_batch_dir title shadow corner_radius keep_name rest
        (output_name keep_name it.stem :: res.1, res.2)
    else process_batch_dir title shadow corner_radius keep_name rest

/-! Concrete inputs used by witnesses and counterexamples. -/

/-- An 8x8 source image all of whose pixels are fully transparent. -/
def srcTransparent8 : Img := ⟨8, 8, fun _ _ => ⟨0, 0, 0, 0⟩⟩

/-- An 8x8 fully opaque source image. -/
def srcOpaque8 : Img := ⟨8, 8, fun _ _ => ⟨10, 20, 30, 255⟩⟩

/-- A 40x40 fully opaque source image. -/
def srcOpaque40 : Img := ⟨40, 40, fun _ _ => ⟨200, 50, 50, 255⟩⟩

/-- A 1x1 opaque source image, constant everywhere. -/
def srcUnit1 : Img := ⟨1, 1, fun _ _ => ⟨1, 2, 3, 255⟩⟩

/-- A 1x1 source image equal to `srcUnit1` in bounds but different out of
bounds (the same decoded image presented by a different buffer). -/
def srcUnit2 : Img :=
  ⟨1, 1, fun x y => if x = 0 ∧ y = 0 then ⟨1, 2, 3, 255⟩ else ⟨9, 9, 9, 9⟩⟩

/-- A recognized directory entry whose decoding fails. -/
def itemBad : BatchItem := ⟨"bad", ".png", .error ⟨"cannot identify image file"⟩⟩

/-- A recognized directory entry that decodes fine. -/
def itemGood : BatchItem := ⟨"good", ".png", .ok srcOpaque8⟩

/-- A second recognized, decodable directory entry. -/
def itemGood2 : BatchItem := ⟨"good2", ".png", .ok srcOpaque8⟩

/-- The title bar with the text stage removed altogether (what the
generator does when no truthy title is supplied). -/
def create_title_bar_noText (width height : Nat) (corner_radius : Int) : Img :=
  let scale := SUPERSAMPLE_SCALE
  let hiW := width * scale
  let hiH := height * scale
  let hiR : Int := corner_radius * Int.ofNat scale
  let hiBR := BUTTON_RADIUS * scale
  let hiBS := BUTTON_SPACING * scale
  let hiBM := BUTTON_LEFT_MARGIN * scale
  let f1 := paint (roundedRegion 0 0 (Int.ofNat hiW) (Int.ofNat hiH) hiR) titleBarInk blankFn
  let f2 := paint (rectRegion 0 (Int.ofNat hiH - hiR) (Int.ofNat hiW) (Int.ofNat hiH)) titleBarInk f1
  let buttonY := hiH / 2
  let f3 := paint (discRegion (Int.ofNat (buttonX hiBM hiBR hiBS 0)) (Int.ofNat buttonY)
      (Int.ofNat hiBR)) (buttonInk 0) f2
  let f4 := paint (discRegion (Int.ofNat (buttonX hiBM hiBR hiBS 1)) (Int.ofNat buttonY)
      (Int.ofNat hiBR)) (buttonInk 1) f3
  let f5 := paint (discRegion (Int.ofNat (buttonX hiBM hiBR hiBS 2)) (Int.ofNat buttonY)
      (Int.ofNat hiBR)) (buttonInk 2) f4
  let f7 := paint (hlineRegion 0 (Int.ofNat hiW) (Int.ofNat hiH - Int.ofNat scale)
      (Int.ofNat ((scale - 1) / 2))) borderInk f5
  resizeDown3 f7 width height

/-! Helper lemmas shared by the claim theorems. -/

/-- An "over" composite with a fully opaque source pixel returns the
source pixel exactly, whatever the destination. -/
theorem acPix_opaque (d s : RGBA) (h : s.a = 255) : acPix d s = s := by
  simp only [acPix, h]
  norm_num
  ext <;> simp <;> omega

/-- A mask blend with full mask value returns the source pixel. -/
theorem blendPix_full (d s : RGBA) : blendPix d s 255 = s := by
  ext <;> simp [blendPix, blendChan] <;> omega

/-- With radius zero the rounded-rectangle region is the plain
rectangle: the corner squares are empty. -/
theorem roundedRegion_zero (x0 y0 x1 y1 x y : Int) :
    roundedRegion x0 y0 x1 y1 0 x y ↔ rectRegion x0 y0 x1 y1 x y := by
  unfold roundedRegion roundedRel rectRegion rectRel
  constructor
  · rintro ⟨hb, -⟩
    exact hb
  · rintro ⟨h1, h2, h3, h4⟩
    refine ⟨⟨h1, h2, h3, h4⟩, ?_, ?_, ?_, ?_⟩ <;>
      (rintro ⟨hc1, hc2⟩; exfalso; omega)

/-- Painting through propositionally equal regions gives the same
pixel function. -/
theorem paint_congr {r1 r2 : Int → Int → Prop}
    [∀ x y, Decidable (r1 x y)] [∀ x y, Decidable (r2 x y)]
    (h : ∀ a b, r1 a b ↔ r2 a b) (c : RGBA) (f : Nat → Nat → RGBA) :
    paint r1 c f = paint r2 c f :=
  funext fun a => funext fun b => if_congr (h a b) rfl rfl

/-- `paint_congr` for single-channel painting. -/
theorem paintL_congr {r1 r2 : Int → Int → Prop}
    [∀ x y, Decidable (r1 x y)] [∀ x y, Decidable (r2 x y)]
    (h : ∀ a b, r1 a b ↔ r2 a b) (v : Nat) (f : Nat → Nat → Nat) :
    paintL r1 v f = paintL r2 v f :=
  funext fun a => funext fun b => if_congr (h a b) rfl rfl

/-- Claim C9: the saved output equals the second assembly pass alone —
the buffer `final` built by the first pass (shadow, background, title
bar and the unmasked source paste, lines 171-229) is never read again,
so it has no effect on the saved output for any input and
configuration. -/
theorem claim_C9_second_pass_only (source : Img) (title : Option String)
    (shadow : Bool) (corner_radius : Int) :
    create_browser_frame source title shadow corner_radius
      = assemble_second_pass source title shadow corner_radius := rfl

/-- Claim C10: an empty-string title is treated the same as an absent
title — the text stage is gated on the title being truthy (`if title:`),
not merely non-None, so the bar built for `""` is identical to the bar
built with no title, and equals the bar with the text stage removed
altogether: no text is drawn. -/
theorem claim_C10_empty_title (w h : Nat) (r : Int) :
    create_title_bar_supersampled w h r (some "") = create_title_bar_supersampled w h r none ∧
    create_title_bar_supersampled w h r (some "") = create_title_bar_noText w h r :=
  ⟨rfl, rfl⟩

/-- Claim C2: for a source of width W and height H the canvas is
(W + 2*20) x (H + 32 + 2*20) with the shadow enabled and W x (H + 32)
with it disabled (padding 20, title-bar height 32). -/
theorem claim_C2_canvas_dimensions (source : Img) (title : Option String) (r : Int) :
    ((create_browser_frame source title true r).width = source.width + 2 * 20 ∧
     (create_browser_frame source title true r).height = source.height + 32 + 2 * 20) ∧
    ((create_browser_frame source title false r).width = source.width ∧
     (create_browser_frame source title false r).height = source.height + 32) := by
  refine ⟨⟨?_, ?_⟩, ?_, ?_⟩ <;> rfl

/-- Claim C1: the saved buffer is exactly the §4.5 stack — onto a fully
transparent canvas, in this order: the blurred shadow layer (only when
the shadow is enabled), the white rounded-rectangle background layer,
the title-bar layer, and the source image pasted at
`content_offset + (0, title_bar_height)` blended through the content
mask with the mask value as the blend alpha. -/
theorem claim_C1_composite_stack (source : Img) (title : Option String)
    (shadow : Bool) (corner_radius : Int) :
    (create_browser_frame source title shadow corner_radius).Eq
      (specFrameComposite source title shadow corner_radius) := by
  cases shadow <;> exact ⟨rfl, rfl, fun x _ y _ => rfl⟩

/-- Claim C3, amended: the masked content paste REPLACES rather than
blends — at every pixel where the content mask is full (255) the saved
output pixel equals the content-layer pixel, i.e. the source pixel where
one is present.  Hence the output is fully opaque at interior content
pixels whose source pixel is opaque, but the white backing does not show
through source transparency: a transparent source pixel yields a
transparent output pixel there. -/
theorem claim_C3_masked_paste_replaces (source : Img) (title : Option String)
    (shadow : Bool) (r : Int) (x y : Nat)
    (hm : (content_mask_def (computeGeometry source.width (source.height + TITLE_BAR_HEIGHT) shadow)
        source.width (source.height + TITLE_BAR_HEIGHT) r).px x y = 255) :
    (create_browser_frame source title shadow r).px x y
      = (content_layer_def (computeGeometry source.width (source.height + TITLE_BAR_HEIGHT) shadow)
          source).px x y := by
  dsimp only [create_browser_frame, create_browser_frame_full, pasteFullMask]
  rw [hm]
  exact blendPix_full _ _

/-- Witness for C3's amended theorem: an 8x8 opaque source, no shadow,
radius 0; at the content pixel (4, 36) the mask is full and the output
pixel is the pasted source pixel. -/
theorem witness_C3_masked_paste :
    (content_mask_def (computeGeometry 8 40 false) 8 40 0).px 4 36 = 255 ∧
    (create_browser_frame srcOpaque8 none false 0).px 4 36
      = (content_layer_def (computeGeometry 8 40 false) srcOpaque8).px 4 36 :=
  ⟨by decide, claim_C3_masked_paste_replaces srcOpaque8 none false 0 4 36 (by decide)⟩

/-- Counterexample to C3 as stated: for the fully transparent 8x8 source
(radius 0, shadow off) the content pixel (4, 36) has a full mask value —
it is interior to the content area — yet the saved output has alpha 0
there, not 255: the white backing does not remain visible behind
transparent source pixels. -/
theorem counterexample_C3_transparency_punchthrough :
    (content_mask_def (computeGeometry 8 40 false) 8 40 0).px 4 36 = 255 ∧
    ((create_browser_frame srcTransparent8 none false 0).px 4 36).a = 0 := by
  exact ⟨by decide, by decide⟩

/-- Claim C7: the pipeline is a pure function of the decoded source
pixels and the configuration — two source buffers equal in bounds
produce in-bounds identical outputs, for every configuration (and hence
running the pipeline twice on the same input produces identical
buffers). -/
theorem claim_C7_deterministic (s1 s2 : Img) (title : Option String)
    (shadow : Bool) (r : Int) (h : s1.Eq s2) :
    (create_browser_frame s1 title shadow r).Eq (create_browser_frame s2 title shadow r) := by
  obtain ⟨hw, hh, hpx⟩ := h
  cases s1 with
  | mk w1 h1 p1 =>
    cases s2 with
    | mk w2 h2 p2 =>
      dsimp only at hw hh hpx
      subst hw
      subst hh
      refine ⟨rfl, rfl, ?_⟩
      intro x _ y _
      dsimp only [create_browser_frame, create_browser_frame_full, pasteFullMask,
        content_layer_def, pasteImg, alphaComposite, blankImg, blankFn]
      congr 1
      split
      · next hc => exact hpx _ (by omega) _ (by omega)
      · rfl

/-- Witness for C7: the same decoded 1x1 image presented by two buffers
that differ out of bounds renders to in-bounds identical outputs. -/
theorem witness_C7_deterministic :
    srcUnit1.Eq srcUnit2 ∧
    (create_browser_frame srcUnit1 none false 0).Eq (create_browser_frame srcUnit2 none false 0) :=
  ⟨by decide, claim_C7_deterministic srcUnit1 srcUnit2 none false 0 (by decide)⟩

/-- Congruence for `sumUpTo` under pointwise-equal summands. -/
theorem sumUpTo_congr (n : Nat) (f g : Nat → Nat) (h : ∀ i, i < n → f i = g i) :
    sumUpTo n f = sumUpTo n g := by
  induction n with
  | zero => rfl
  | succ m ih =>
    unfold sumUpTo
    rw [ih (fun i hi => h i (Nat.lt_succ_of_lt hi)), h m (Nat.lt_succ_self m)]

/-- The block-average downsample commutes with translating both the
high-resolution function (by `3*dx`, `3*dy`) and the target pixel (by
`dx`, `dy`). -/
theorem downChan_shift (f g : Nat → Nat → Nat) (dx dy x y : Nat)
    (h : ∀ u v, f (u + 3 * dx) (v + 3 * dy) = g u v) :
    downChan f (x + dx) (y + dy) = downChan g x y := by
  unfold downChan
  have hs : sumUpTo 3 (fun i => sumUpTo 3 fun j => f (3 * (x + dx) + i) (3 * (y + dy) + j))
      = sumUpTo 3 (fun i => sumUpTo 3 fun j => g (3 * x + i) (3 * y + j)) := by
    apply sumUpTo_congr
    intro i _
    apply sumUpTo_congr
    intro j _
    rw [show 3 * (x + dx) + i = 3 * x + i + 3 * dx from by ring,
        show 3 * (y + dy) + j = 3 * y + j + 3 * dy from by ring]
    exact h _ _
  rw [hs]

/-- `downChan_shift` lifted to `resizeDown3`, channel by channel. -/
theorem resizeDown3_shift (f g : Nat → Nat → RGBA) (w1 h1 w2 h2 dx dy x y : Nat)
    (h : ∀ u v, f (u + 3 * dx) (v + 3 * dy) = g u v) :
    (resizeDown3 f w1 h1).px (x + dx) (y + dy) = (resizeDown3 g w2 h2).px x y := by
  dsimp only [resizeDown3]
  rw [downChan_shift (fun u v => (f u v).r) (fun u v => (g u v).r) dx dy x y
        (fun u v => congrArg RGBA.r (h u v)),
      downChan_shift (fun u v => (f u v).g) (fun u v => (g u v).g) dx dy x y
        (fun u v => congrArg RGBA.g (h u v)),
      downChan_shift (fun u v => (f u v).b) (fun u v => (g u v).b) dx dy x y
        (fun u v => congrArg RGBA.b (h u v)),
      downChan_shift (fun u v => (f u v).a) (fun u v => (g u v).a) dx dy x y
        (fun u v => congrArg RGBA.a (h u v))]

/-- `downChan_shift` lifted to `resizeDown3L`. -/
theorem resizeDown3L_shift (f g : Nat → Nat → Nat) (w1 h1 w2 h2 dx dy x y : Nat)
    (h : ∀ u v, f (u + 3 * dx) (v + 3 * dy) = g u v) :
    (resizeDown3L f w1 h1).px (x + dx) (y + dy) = (resizeDown3L g w2 h2).px x y := by
  dsimp only [resizeDown3L]
  exact downChan_shift f g dx dy x y h

/-- `roundedRel` only depends on the box-relative arguments, so equal
relative coordinates give equivalent membership. -/
theorem roundedRel_iff_congr {w1 h1 u1 v1 w2 h2 u2 v2 : Int} (r : Int)
    (hw : w1 = w2) (hh : h1 = h2) (hu : u1 = u2) (hv : v1 = v2) :
    (roundedRel w1 h1 r u1 v1 ↔ roundedRel w2 h2 r u2 v2) := by
  rw [hw, hh, hu, hv]

/-- The background layer is translation-equivariant by the padding
shift: its shadow-geometry pixel at `(x+20, y+20)` equals its
no-shadow-geometry pixel at `(x, y)`. -/
theorem bg_layer_shift (fw fh : Nat) (r : Int) (x y : Nat) :
    (bg_layer_def ⟨fw + 20 * 2, fh + 20 * 2, 20, 20⟩ fw fh r).px (x + 20) (y + 20)
      = (bg_layer_def ⟨fw, fh, 0, 0⟩ fw fh r).px x y := by
  dsimp only [bg_layer_def, SUPERSAMPLE_SCALE]
  apply resizeDown3_shift
  intro u v
  dsimp only [paint]
  exact if_congr
    (by
      unfold roundedRegion
      exact roundedRel_iff_congr _ (by simp only [Int.ofNat_eq_natCast]; push_cast; omega) (by simp only [Int.ofNat_eq_natCast]; push_cast; omega) (by simp only [Int.ofNat_eq_natCast]; push_cast; omega) (by simp only [Int.ofNat_eq_natCast]; push_cast; omega))
    rfl rfl

/-- The content mask is translation-equivariant by the padding shift. -/
theorem content_mask_shift (fw fh : Nat) (r : Int) (x y : Nat) :
    (content_mask_def ⟨fw + 20 * 2, fh + 20 * 2, 20, 20⟩ fw fh r).px (x + 20) (y + 20)
      = (content_mask_def ⟨fw, fh, 0, 0⟩ fw fh r).px x y := by
  dsimp only [content_mask_def, SUPERSAMPLE_SCALE, TITLE_BAR_HEIGHT]
  apply resizeDown3L_shift
  intro u v
  dsimp only [paintL]
  refine if_congr ?_ rfl (if_congr ?_ rfl rfl)
  · unfold rectRegion rectRel
    simp only [Int.ofNat_eq_natCast]
    push_cast
    omega
  · unfold roundedRegion
    exact roundedRel_iff_congr _ (by simp only [Int.ofNat_eq_natCast]; push_cast; omega) (by simp only [Int.ofNat_eq_natCast]; push_cast; omega) (by simp only [Int.ofNat_eq_natCast]; push_cast; omega) (by simp only [Int.ofNat_eq_natCast]; push_cast; omega)

/-- The content layer is translation-equivariant by the padding shift. -/
theorem content_layer_shift (fh : Nat) (source : Img) (x y : Nat) :
    (content_layer_def ⟨source.width + 20 * 2, fh + 20 * 2, 20, 20⟩ source).px (x + 20) (y + 20)
      = (content_layer_def ⟨source.width, fh, 0, 0⟩ source).px x y := by
  dsimp only [content_layer_def, pasteImg, blankImg, TITLE_BAR_HEIGHT]
  refine if_congr (by omega) ?_ rfl
  rw [show x + 20 - 20 = x - 0 from by omega,
      show y + 20 - (20 + 32) = y - (0 + 32) from by omega]

/-- The title-bar layer is translation-equivariant by the padding
shift, the pasted bar being the same image in both geometries. -/
theorem title_bar_layer_shift (fw fh : Nat) (tb : Img) (x y : Nat) :
    (title_bar_layer_def ⟨fw + 20 * 2, fh + 20 * 2, 20, 20⟩ tb).px (x + 20) (y + 20)
      = (title_bar_layer_def ⟨fw, fh, 0, 0⟩ tb).px x y := by
  dsimp only [title_bar_layer_def, pasteSelf, blankImg]
  refine if_congr (by omega) ?_ rfl
  rw [show x + 20 - 20 = x - 0 from by omega,
      show y + 20 - 20 = y - 0 from by omega]
  rfl

/-- Claim C5, amended: when the shadow is disabled no shadow layer is
produced (`shadow_canvas` stays `None`) or composited; and the
cross-render identity holds on all of the frame interior proper: at
every pixel at which the no-shadow background layer is fully opaque,
the shadow-disabled output at `(x, y)` is pixel-identical to the
shadow-enabled output at the padding-translated `(x + 20, y + 20)`.
Every layer is translation-equivariant by exactly the padding shift,
and the opaque backing absorbs the shadow beneath it; only the
rounded-corner cutout pixels of the frame rectangle, where the
background is not fully opaque and the blurred shadow shows through,
are excluded — exactly what the counterexample forces. -/
theorem claim_C5_translated_identity (source : Img) (title : Option String)
    (r : Int) (x y : Nat)
    (hbg : ((bg_layer_def (computeGeometry source.width (source.height + TITLE_BAR_HEIGHT) false)
        source.width (source.height + TITLE_BAR_HEIGHT) r).px x y).a = 255) :
    (create_browser_frame source title false r).px x y
      = (create_browser_frame source title true r).px (x + 20) (y + 20) ∧
    shadow_canvas_opt (computeGeometry source.width (source.height + TITLE_BAR_HEIGHT) false)
      source.width (source.height + TITLE_BAR_HEIGHT) false r = none := by
  constructor
  · have hgt : computeGeometry source.width (source.height + TITLE_BAR_HEIGHT) true
        = ⟨source.width + 20 * 2, source.height + TITLE_BAR_HEIGHT + 20 * 2, 20, 20⟩ := rfl
    have hgf : computeGeometry source.width (source.height + TITLE_BAR_HEIGHT) false
        = ⟨source.width, source.height + TITLE_BAR_HEIGHT, 0, 0⟩ := rfl
    rw [hgf] at hbg
    dsimp only [create_browser_frame, create_browser_frame_full, pasteFullMask,
      alphaComposite, shadow_canvas_opt]
    rw [hgt, hgf]
    have hbgS : ((bg_layer_def ⟨source.width + 20 * 2, source.height + TITLE_BAR_HEIGHT + 20 * 2,
        20, 20⟩ source.width (source.height + TITLE_BAR_HEIGHT) r).px (x + 20) (y + 20)).a
        = 255 := by
      rw [bg_layer_shift]
      exact hbg
    have hbS := fun d => acPix_opaque d _ hbgS
    have hbN := fun d => acPix_opaque d _ hbg
    rw [hbS, hbN, bg_layer_shift, title_bar_layer_shift, content_layer_shift,
      content_mask_shift]
  · rfl

/-- Witness for C5's amended theorem: an 8x8 opaque source, radius 0;
at pixel (4, 20) the no-shadow background layer is fully opaque and the
no-shadow output equals the shadow output at (24, 40). -/
theorem witness_C5_translated :
    ((bg_layer_def (computeGeometry 8 40 false) 8 40 0).px 4 20).a = 255 ∧
    (create_browser_frame srcOpaque8 none false 0).px 4 20
      = (create_browser_frame srcOpaque8 none true 0).px (4 + 20) (20 + 20) :=
  ⟨by decide, (claim_C5_translated_identity srcOpaque8 none 0 4 20 (by decide)).1⟩

/-- Counterexample to C5 as stated: for the opaque 40x40 source with
corner radius 16, the frame-rectangle pixel (39, 71) — the bottom-right
corner, inside the frame rectangle but outside the rounded silhouette —
is fully transparent in the shadow-disabled render, while the
shadow-enabled render at the padding-translated pixel (59, 91) carries
the blurred shadow: the two renders are not pixel-identical on the
translated frame rectangle. -/
theorem counterexample_C5_corner_pixels_differ :
    (39 < 40 ∧ 71 < 40 + TITLE_BAR_HEIGHT) ∧
    (create_browser_frame srcOpaque40 none false 16).px 39 71
      ≠ (create_browser_frame srcOpaque40 none true 16).px (39 + PADDING) (71 + PADDING) := by
  refine ⟨by decide, by decide⟩

/-- Claim C4, amended: the batch loop has no per-item error handling — a
decode failure on one recognized image aborts the remaining batch:
outputs created for the error-free recognized prefix persist, but no
later image is processed and no per-item failure report is produced;
the failure propagates out of the loop. -/
theorem claim_C4_batch_error_aborts (title : Option String) (shadow : Bool)
    (r : Int) (keep : Bool) (pre rest : List BatchItem) (it : BatchItem) (e : DecodeError)
    (hrec : recognizedImage it = true) (herr : it.decoded = .error e)
    (hpre : ∀ p ∈ pre, recognizedImage p = true → ∃ s, p.decoded = .ok s) :
    process_batch_dir title shadow r keep (pre ++ it :: rest)
      = ((process_batch_dir title shadow r keep pre).1, some e) := by
  induction pre with
  | nil =>
    simp only [List.nil_append, process_batch_dir, hrec, herr, if_true]
  | cons p pre ih =>
    have ih2 := ih (fun q hq => hpre q (List.mem_cons_of_mem _ hq))
    by_cases hr : recognizedImage p
    · obtain ⟨s, hs⟩ := hpre p (List.mem_cons_self _ _) hr
      simp [process_batch_dir, hr, hs, ih2, List.append_eq]
    · simp [process_batch_dir, hr, ih2, List.append_eq]

/-- Witness for C4's amended theorem: a decodable recognized image,
then a failing one, then another decodable one — the batch result is
the prefix's single output plus the propagated failure. -/
theorem witness_C4_batch_abort :
    recognizedImage itemBad = true ∧
    process_batch_dir none true 10 false ([itemGood] ++ itemBad :: [itemGood2])
      = ((process_batch_dir none true 10 false [itemGood]).1,
         some ⟨"cannot identify image file"⟩) :=
  ⟨by decide,
   claim_C4_batch_error_aborts none true 10 false [itemGood] [itemGood2] itemBad
     ⟨"cannot identify image file"⟩ (by decide) rfl
     (by
       intro p hp _
       simp only [List.mem_singleton] at hp
       subst hp
       exact ⟨srcOpaque8, rfl⟩)⟩

/-- Counterexample to C4 as stated: in the directory `[itemBad,
itemGood]` the second entry is recognized and decodable, yet after the
first entry's decode failure no output at all is created — the failure
is not isolated to the failing image.  The same good entry alone does
produce its output. -/
theorem counterexample_C4_batch_abort :
    recognizedImage itemGood = true ∧ itemGood.decoded = .ok srcOpaque8 ∧
    (process_batch_dir none true 10 false [itemBad, itemGood]).1 = [] ∧
    (process_batch_dir none true 10 false [itemGood]).1 = ["good_framed.png"] := by
  refine ⟨by decide, rfl, rfl, rfl⟩

/-- Painting a rounded rectangle whose radius expression evaluates to 0
is painting the plain rectangle. -/
theorem paint_rounded_zero {r : Int} (hr : r = 0) (x0 y0 x1 y1 : Int)
    (c : RGBA) (f : Nat → Nat → RGBA) :
    paint (roundedRegion x0 y0 x1 y1 r) c f = paint (rectRegion x0 y0 x1 y1) c f := by
  subst hr
  exact paint_congr (fun a b => roundedRegion_zero x0 y0 x1 y1 a b) c f

/-- `paint_rounded_zero` for single-channel painting. -/
theorem paintL_rounded_zero {r : Int} (hr : r = 0) (x0 y0 x1 y1 : Int)
    (v : Nat) (f : Nat → Nat → Nat) :
    paintL (roundedRegion x0 y0 x1 y1 r) v f = paintL (rectRegion x0 y0 x1 y1) v f := by
  subst hr
  exact paintL_congr (fun a b => roundedRegion_zero x0 y0 x1 y1 a b) v f

/-- With radius 0 the title bar is drawn with square corners only. -/
theorem create_title_bar_zero (w h : Nat) (t : Option String) :
    create_title_bar_supersampled w h 0 t = create_title_bar_square w h t := by
  have h0 : (0 : Int) * Int.ofNat SUPERSAMPLE_SCALE = 0 := by ring
  have h1 : Int.ofNat (h * SUPERSAMPLE_SCALE) - 0 * Int.ofNat SUPERSAMPLE_SCALE
      = Int.ofNat (h * SUPERSAMPLE_SCALE) := by ring
  simp only [create_title_bar_supersampled, create_title_bar_square]
  rw [paint_rounded_zero h0, h1]

/-- With radius 0 the background layer is the plain white rectangle. -/
theorem bg_layer_zero (g : Geometry) (fw fh : Nat) :
    bg_layer_def g fw fh 0 = bg_layer_square g fw fh := by
  have h0 : (0 : Int) * Int.ofNat SUPERSAMPLE_SCALE = 0 := by ring
  simp only [bg_layer_def, bg_layer_square]
  rw [paint_rounded_zero h0]

/-- With radius 0 the shadow silhouette is the plain rectangle. -/
theorem shadow_canvas_zero (g : Geometry) (fw fh : Nat) :
    shadow_canvas_def g fw fh 0 = shadow_canvas_square g fw fh := by
  have h0 : (0 : Int) * Int.ofNat SUPERSAMPLE_SCALE = 0 := by ring
  simp only [shadow_canvas_def, shadow_canvas_square]
  rw [paint_rounded_zero h0]

/-- With radius 0 the content mask is the plain content rectangle. -/
theorem content_mask_zero (g : Geometry) (fw fh : Nat) :
    content_mask_def g fw fh 0 = content_mask_square g fw fh := by
  have h0 : (0 : Int) * Int.ofNat SUPERSAMPLE_SCALE = 0 := by ring
  have h2 : (Int.ofNat (g.offset_y + TITLE_BAR_HEIGHT) + 0) * Int.ofNat SUPERSAMPLE_SCALE
      = Int.ofNat (g.offset_y + TITLE_BAR_HEIGHT) * Int.ofNat SUPERSAMPLE_SCALE := by ring
  simp only [content_mask_def, content_mask_square]
  rw [paintL_rounded_zero h0, h2]

/-- Claim C8: with corner radius 0 rendering succeeds (the pipeline is
total) and every corner-rounding primitive degenerates to a
square-cornered rectangle: the saved output equals the pipeline
assembled entirely from plain rectangles. -/
theorem claim_C8_radius_zero_square (source : Img) (title : Option String)
    (shadow : Bool) :
    create_browser_frame source title shadow 0
      = create_browser_frame_square source title shadow := by
  simp only [create_browser_frame, create_browser_frame_full, create_browser_frame_square,
    shadow_canvas_opt, shadow_canvas_square_opt]
  rw [create_title_bar_zero, bg_layer_zero, shadow_canvas_zero, content_mask_zero]
